import Mathlib

/-!
Shallow embedding of the vehicle security controller in `src/main.cpp`.

The controller state is the tuple of global variables of the program:
`currentState`, `isPanicBlock`, the timer (modelled as whole elapsed
seconds since the last reset), and the three output levels `led1`,
`relay`, `buzzer` (each written as 0 or 1 by the program).

Serial input is modelled per poll as an `Option Char` (the at-most-one
byte read by `processCommunication`); the raw button level is a `Bool`
that is `true` when the active-low input reads 0 (pressed).  Serial
output is collected as the list of bytes written during the poll, in
chronological order.  Time advances only between polls: a trace step
first adds a whole-second delay to the timer and then runs one
iteration of `processStates`.
-/

/-- The `States` enum of the program: OFF, MONITOR, PANIC. -/
inductive States where
  | OFF
  | MONITOR
  | PANIC
deriving DecidableEq

/-- `TIME_FOR_OVERTIME`: seconds before the MONITOR state times out. -/
def TIME_FOR_OVERTIME : Nat := 5

/-- `ALARM_TIME`: seconds of warning phase before the alarm escalates. -/
def ALARM_TIME : Nat := 20

/-- The global mutable state of the program: `currentState` and
`isPanicBlock` from `main.cpp`, the timer as whole elapsed seconds
since the last reset, and the three `DigitalOut` levels. -/
structure Config where
  currentState : States
  isPanicBlock : Bool
  elapsed : Nat
  led1 : Nat
  relay : Nat
  buzzer : Nat
deriving DecidableEq

/-- State at power-on: `currentState = OFF`, `isPanicBlock = false`,
timer just started, every `DigitalOut` initialized low. -/
def initConfig : Config :=
  { currentState := States.OFF
    isPanicBlock := false
    elapsed := 0
    led1 := 0
    relay := 0
    buzzer := 0 }

/-- `outputsOffSet`: drive LED, relay and buzzer low. -/
def outputsOffSet (c : Config) : Config :=
  { c with led1 := 0, relay := 0, buzzer := 0 }

/-- `transitionToState`: set `currentState` and reset the timer. -/
def transitionToState (c : Config) (newState : States) : Config :=
  { c with currentState := newState, elapsed := 0 }

/-- `handleMonitorState`: outputs low; past `TIME_FOR_OVERTIME`
seconds, transition to PANIC. -/
def handleMonitorState (c : Config) : Config :=
  let c := outputsOffSet c
  if TIME_FOR_OVERTIME < c.elapsed then
    transitionToState c States.PANIC
  else
    c

/-- `handlePanicState`: before `ALARM_TIME` seconds, blink LED and
buzzer with `elapsed % 2` (the relay is not written); afterwards LED
high, buzzer low, relay high, and if `isPanicBlock` is still unset,
write one `'P'` and set it. -/
def handlePanicState (c : Config) : Config × List Char :=
  let elapsed := c.elapsed
  if elapsed < ALARM_TIME then
    ({ c with led1 := elapsed % 2, buzzer := elapsed % 2 }, [])
  else
    let c := { c with led1 := 1, buzzer := 0, relay := 1 }
    if c.isPanicBlock = false then
      ({ c with isPanicBlock := true }, ['P'])
    else
      (c, [])

/-- `processCommunication`: consume the received byte, if any.  The
guard admits every byte while `isPanicBlock` is unset but only `'o'`
while it is set; a rejected byte is answered with `'P'`.  The switch:
`'o'` transitions to OFF, answers `'O'` and clears `isPanicBlock`;
`'m'` answers `'M'` and resets the timer, transitioning to MONITOR
first unless already there; `'p'` transitions to PANIC and answers
`'P'`; any other byte is ignored. -/
def processCommunication (c : Config) (received : Option Char) : Config × List Char :=
  match received with
  | none => (c, [])
  | some ch =>
    if c.isPanicBlock = false ∨ ch = 'o' then
      if ch = 'o' then
        ({ transitionToState c States.OFF with isPanicBlock := false }, ['O'])
      else if ch = 'm' then
        if c.currentState = States.MONITOR then
          ({ c with elapsed := 0 }, ['M'])
        else
          ({ transitionToState c States.MONITOR with elapsed := 0 }, ['M'])
      else if ch = 'p' then
        (transitionToState c States.PANIC, ['P'])
      else
        (c, [])
    else
      (c, ['P'])

/-- `processButtonPress`: `buttonLow` is `true` when the active-low
input reads 0 (pressed).  `isButtonPressed` is a local variable of the
function in the source, so it is (re)initialized to `false` on every
call; when the press branch is taken it sets `isPanicBlock`, writes
`'P'` and transitions to PANIC.  (The source's assignments to the
local `isButtonPressed` have no observable effect.) -/
def processButtonPress (c : Config) (buttonLow : Bool) : Config × List Char :=
  let isButtonPressed : Bool := false
  if buttonLow = true ∧ isButtonPressed = false ∧ c.isPanicBlock = false then
    (transitionToState { c with isPanicBlock := true } States.PANIC, ['P'])
  else
    (c, [])

/-- `processStates`: one iteration of the main loop — communication,
then the button, then the handler of the (possibly updated) current
state.  Serial output is concatenated in chronological order. -/
def processStates (c : Config) (received : Option Char) (buttonLow : Bool) :
    Config × List Char :=
  let r1 := processCommunication c received
  let r2 := processButtonPress r1.1 buttonLow
  match r2.1.currentState with
  | States.OFF => (outputsOffSet r2.1, r1.2 ++ r2.2)
  | States.MONITOR => (handleMonitorState r2.1, r1.2 ++ r2.2)
  | States.PANIC =>
    let r3 := handlePanicState r2.1
    (r3.1, r1.2 ++ r2.2 ++ r3.2)

/-- One trace step: let `inp.1` whole seconds elapse on the timer, then
run one poll with serial byte `inp.2.1` and raw button level
`inp.2.2`. -/
def step (c : Config) (inp : Nat × Option Char × Bool) : Config × List Char :=
  processStates { c with elapsed := c.elapsed + inp.1 } inp.2.1 inp.2.2

/-- Run a list of trace steps, concatenating the serial output. -/
def run (c : Config) : List (Nat × Option Char × Bool) → Config × List Char
  | [] => (c, [])
  | i :: is =>
    let r1 := step c i
    let r2 := run r1.1 is
    (r2.1, r1.2 ++ r2.2)

/-! ### Helper lemmas -/

theorem processCommunication_none (c : Config) :
    processCommunication c none = (c, []) := rfl

theorem processButtonPress_released (c : Config) :
    processButtonPress c false = (c, []) := by
  simp [processButtonPress]

theorem processButtonPress_latched (c : Config) (b : Bool)
    (hl : c.isPanicBlock = true) : processButtonPress c b = (c, []) := by
  simp [processButtonPress, hl]

theorem handlePanicState_currentState (c : Config) :
    (handlePanicState c).1.currentState = c.currentState := by
  by_cases h : c.elapsed < ALARM_TIME
  · simp [handlePanicState, h]
  · by_cases h2 : c.isPanicBlock = false <;> simp [handlePanicState, h, h2]

theorem handlePanicState_elapsed (c : Config) :
    (handlePanicState c).1.elapsed = c.elapsed := by
  by_cases h : c.elapsed < ALARM_TIME
  · simp [handlePanicState, h]
  · by_cases h2 : c.isPanicBlock = false <;> simp [handlePanicState, h, h2]

/-! ### Claim C1 -/

/-- Claim C1 (confirmed): while `isPanicBlock` is set, any received
byte other than `'o'` leaves the whole controller state unchanged and
is answered with exactly one `'P'`; the button processing ignores any
raw button level (no state change, no latch change, no emission); and
(in the reachable case, state PANIC) the full poll cycle emits exactly
one `'P'` and changes neither the state, the latch, nor the timer. -/
theorem c1_latched_rejects_non_off (s : Config) (ch : Char) (b : Bool)
    (hl : s.isPanicBlock = true) (hch : ch ≠ 'o') :
    processCommunication s (some ch) = (s, ['P']) ∧
    processButtonPress s b = (s, []) ∧
    (s.currentState = States.PANIC →
      (processStates s (some ch) b).2 = ['P'] ∧
      (processStates s (some ch) b).1.currentState = States.PANIC ∧
      (processStates s (some ch) b).1.isPanicBlock = true ∧
      (processStates s (some ch) b).1.elapsed = s.elapsed) := by
  have hcomm : processCommunication s (some ch) = (s, ['P']) := by
    simp [processCommunication, hl, hch]
  have hbtn : processButtonPress s b = (s, []) :=
    processButtonPress_latched s b hl
  refine ⟨hcomm, hbtn, fun hst => ?_⟩
  by_cases he : s.elapsed < ALARM_TIME <;>
    simp [processStates, hcomm, hbtn, hst, handlePanicState, he, hl]

/-- Witness for C1: in PANIC, latched, with timer at 7, the byte `'x'`
is answered with one `'P'` and nothing changes; a pressed button is
ignored. -/
theorem c1_witness :
    processCommunication ⟨States.PANIC, true, 7, 1, 0, 1⟩ (some 'x') =
      (⟨States.PANIC, true, 7, 1, 0, 1⟩, ['P']) ∧
    processButtonPress ⟨States.PANIC, true, 7, 1, 0, 1⟩ true =
      (⟨States.PANIC, true, 7, 1, 0, 1⟩, []) :=
  ⟨(c1_latched_rejects_non_off _ 'x' true rfl (by decide)).1,
   (c1_latched_rejects_non_off _ 'x' true rfl (by decide)).2.1⟩

/-! ### Claim C2 -/

theorem step_panic_latched_noinput (s : Config) (d : Nat) (b : Bool)
    (hs : s.currentState = States.PANIC) (hl : s.isPanicBlock = true)
    (he : 20 ≤ s.elapsed) :
    step s (d, none, b) =
      ({ s with elapsed := s.elapsed + d, led1 := 1, buzzer := 0, relay := 1 }, []) := by
  obtain ⟨st, pb, e, l, r, bz⟩ := s
  simp only at hs hl he
  subst hs; subst hl
  have h20 : ¬ (e + d < ALARM_TIME) := by simp [ALARM_TIME]; omega
  simp [step, processStates, processCommunication, processButtonPress,
    handlePanicState, h20]

theorem run_panic_latched_noinput (ds : List (Nat × Bool)) :
    ∀ s : Config, s.currentState = States.PANIC → s.isPanicBlock = true →
    20 ≤ s.elapsed →
    (run s (ds.map fun db => (db.1, none, db.2))).2 = [] ∧
    (run s (ds.map fun db => (db.1, none, db.2))).1.isPanicBlock = true := by
  induction ds with
  | nil => exact fun s _ hl _ => ⟨rfl, hl⟩
  | cons d ds ih =>
    intro s hs hl he
    have hstep := step_panic_latched_noinput s d.1 d.2 hs hl he
    have ih2 := ih { s with elapsed := s.elapsed + d.1, led1 := 1, buzzer := 0, relay := 1 }
      hs hl (by simp; omega)
    simp [run, hstep]
    exact ⟨ih2.1, ih2.2⟩

/-- Claim C2 (confirmed): every no-input poll in PANIC with the timer
at or past 20 seconds drives LED high, buzzer low, relay high; if the
latch is still unset, that poll emits exactly one `'P'` and sets the
latch, and no later no-input poll of the escalated interval (whatever
its button level and delay) emits anything further. -/
theorem c2_escalation_single_ack (s : Config) (ds : List (Nat × Bool))
    (hs : s.currentState = States.PANIC) (he : 20 ≤ s.elapsed) :
    (processStates s none false).1.led1 = 1 ∧
    (processStates s none false).1.buzzer = 0 ∧
    (processStates s none false).1.relay = 1 ∧
    (s.isPanicBlock = false →
      (processStates s none false).2 = ['P'] ∧
      (processStates s none false).1.isPanicBlock = true ∧
      (run (processStates s none false).1
        (ds.map fun db => (db.1, none, db.2))).2 = []) := by
  obtain ⟨st, pb, e, l, r, bz⟩ := s
  simp only at hs he
  subst hs
  have h20 : ¬ (e < ALARM_TIME) := by simp [ALARM_TIME]; omega
  have hpoll : ∀ pb' : Bool, processStates ⟨States.PANIC, pb', e, l, r, bz⟩ none false =
      if pb' = false then (⟨States.PANIC, true, e, 1, 1, 0⟩, ['P'])
      else (⟨States.PANIC, pb', e, 1, 1, 0⟩, []) := by
    intro pb'
    cases pb' <;>
      simp [processStates, processCommunication, processButtonPress,
        handlePanicState, h20]
  cases pb with
  | false =>
    refine ⟨by simp [hpoll], by simp [hpoll], by simp [hpoll], fun _ => ?_⟩
    refine ⟨by simp [hpoll], by simp [hpoll], ?_⟩
    have hrun := run_panic_latched_noinput ds ⟨States.PANIC, true, e, 1, 1, 0⟩
      rfl rfl he
    simp [hpoll]
    exact hrun.1
  | true =>
    exact ⟨by simp [hpoll], by simp [hpoll], by simp [hpoll], fun hfalse => by
      simp at hfalse⟩

/-- Witness for C2: in PANIC at 25 seconds with the latch unset, the
poll emits one `'P'`, and two further no-input polls emit nothing. -/
theorem c2_witness :
    (processStates ⟨States.PANIC, false, 25, 0, 0, 0⟩ none false).2 = ['P'] ∧
    (run (processStates ⟨States.PANIC, false, 25, 0, 0, 0⟩ none false).1
      [(1, none, false), (2, none, true)]).2 = [] := by
  have h := c2_escalation_single_ack ⟨States.PANIC, false, 25, 0, 0, 0⟩
    [(1, false), (2, true)] rfl (by decide)
  exact ⟨(h.2.2.2 rfl).1, (h.2.2.2 rfl).2.2⟩

/-! ### Claim C3 -/

/-- Counterexample to C3: a reachable trace ends a poll in PANIC in
the warning phase (timer at 0) with the relay still high.  The trace:
the button is pressed (latch set, PANIC), 20 seconds pass so the alarm
escalates (relay high), then `'o'` arrives while the button is still
held — the command moves to OFF and clears the latch, the button
immediately re-fires into PANIC with the timer reset, and the warning
phase never writes the relay, which therefore stays high. -/
theorem c3_counterexample :
    (run initConfig [(0, none, true), (20, none, true), (0, some 'o', true)]).1.currentState
      = States.PANIC ∧
    (run initConfig [(0, none, true), (20, none, true), (0, some 'o', true)]).1.elapsed < 20 ∧
    (run initConfig [(0, none, true), (20, none, true), (0, some 'o', true)]).1.relay = 1 := by
  decide

/-- Claim C3 (corrected): every no-input poll in PANIC with the timer
below 20 seconds sets LED and buzzer to `elapsed % 2` and emits
nothing, but the warning phase leaves the relay unchanged rather than
driving it low; the relay is therefore low only when it was already
low when the warning-phase poll began. -/
theorem c3_warning_phase (s : Config)
    (hs : s.currentState = States.PANIC) (ht : s.elapsed < 20) :
    (processStates s none false).1.led1 = s.elapsed % 2 ∧
    (processStates s none false).1.buzzer = s.elapsed % 2 ∧
    (processStates s none false).1.relay = s.relay ∧
    (processStates s none false).2 = [] := by
  obtain ⟨st, pb, e, l, r, bz⟩ := s
  simp only at hs ht
  subst hs
  have h20 : e < ALARM_TIME := by simp [ALARM_TIME]; omega
  cases pb <;>
    simp [processStates, processCommunication, processButtonPress,
      handlePanicState, h20]

/-- Witness for C3 (amended): in PANIC at 7 seconds, the poll drives
LED and buzzer to `7 % 2 = 1` and leaves the (low) relay low. -/
theorem c3_witness :
    (processStates ⟨States.PANIC, false, 7, 0, 0, 0⟩ none false).1.led1 = 7 % 2 ∧
    (processStates ⟨States.PANIC, false, 7, 0, 0, 0⟩ none false).1.relay = 0 :=
  ⟨(c3_warning_phase ⟨States.PANIC, false, 7, 0, 0, 0⟩ rfl (by decide)).1,
   (c3_warning_phase ⟨States.PANIC, false, 7, 0, 0, 0⟩ rfl (by decide)).2.2.1⟩

/-! ### Claim C4 -/

/-- Counterexample to C4: from the initial state, receiving `'o'`
while the raw button input reads pressed makes the poll cycle emit
`'O'` and then `'P'` (not exactly one `'O'`), and the cycle ends in
PANIC with the latch set, not in OFF. -/
theorem c4_counterexample :
    (processStates initConfig (some 'o') true).2 = ['O', 'P'] ∧
    (processStates initConfig (some 'o') true).1.currentState = States.PANIC ∧
    (processStates initConfig (some 'o') true).1.isPanicBlock = true := by
  decide

/-- Claim C4 (corrected): for every state and latch value, receiving
`'o'` in a poll cycle in which the raw button input reads released
results in state OFF, latch cleared, timer reset, all outputs low, and
exactly one `'O'` emitted; if the button reads pressed in the same
cycle, the button path fires after the command and the cycle instead
ends in PANIC, latched, emitting `'O'` then `'P'`. -/
theorem c4_off_command (s : Config) :
    processStates s (some 'o') false =
      ({ currentState := States.OFF, isPanicBlock := false, elapsed := 0,
         led1 := 0, relay := 0, buzzer := 0 }, ['O']) := by
  obtain ⟨st, pb, e, l, r, bz⟩ := s
  simp [processStates, processCommunication, processButtonPress,
    transitionToState, outputsOffSet]

/-! ### Claim C5 -/

/-- Claim C5 (code bug): `isButtonPressed` is a local variable of
`processButtonPress`, reinitialized to `false` on every call, so the
press-edge memory the spec describes does not persist across polls.
Evaluating the code on the failing input — the button held pressed
across two consecutive polls with `'o'` received in the second —
shows the button path firing twice within one physical press: the
trace emits `'P'`, then `'O'` and a second `'P'`, and ends in PANIC
with the latch set instead of staying in OFF. -/
theorem c5_local_edge_memory_refires :
    (run initConfig [(0, none, true), (0, some 'o', true)]).2 = ['P', 'O', 'P'] ∧
    (run initConfig [(0, none, true), (0, some 'o', true)]).1.currentState = States.PANIC ∧
    (run initConfig [(0, none, true), (0, some 'o', true)]).1.isPanicBlock = true := by
  decide

/-! ### Claim C6 -/

/-- Claim C6 (confirmed): every no-input poll in MONITOR drives all
outputs low and emits nothing; past 5 elapsed seconds it transitions
to PANIC with the timer reset, and at or below 5 seconds the state
stays MONITOR with the timer untouched. -/
theorem c6_monitor_timeout (s : Config) (hs : s.currentState = States.MONITOR) :
    (5 < s.elapsed →
      processStates s none false =
        ({ currentState := States.PANIC, isPanicBlock := s.isPanicBlock,
           elapsed := 0, led1 := 0, relay := 0, buzzer := 0 }, [])) ∧
    (s.elapsed ≤ 5 →
      processStates s none false =
        ({ currentState := States.MONITOR, isPanicBlock := s.isPanicBlock,
           elapsed := s.elapsed, led1 := 0, relay := 0, buzzer := 0 }, [])) := by
  obtain ⟨st, pb, e, l, r, bz⟩ := s
  simp only at hs ⊢
  subst hs
  constructor
  · intro h5
    have : TIME_FOR_OVERTIME < e := by simp [TIME_FOR_OVERTIME]; omega
    simp [processStates, processCommunication, processButtonPress,
      handleMonitorState, outputsOffSet, transitionToState, this]
  · intro h5
    have : ¬ (TIME_FOR_OVERTIME < e) := by simp [TIME_FOR_OVERTIME]; omega
    simp [processStates, processCommunication, processButtonPress,
      handleMonitorState, outputsOffSet, transitionToState, this]

/-- Witness for C6: in MONITOR at 6 seconds the poll transitions to
PANIC with the timer reset; in MONITOR at 5 seconds it stays put. -/
theorem c6_witness :
    processStates ⟨States.MONITOR, false, 6, 1, 1, 1⟩ none false =
      (⟨States.PANIC, false, 0, 0, 0, 0⟩, []) ∧
    processStates ⟨States.MONITOR, false, 5, 1, 1, 1⟩ none false =
      (⟨States.MONITOR, false, 5, 0, 0, 0⟩, []) :=
  ⟨(c6_monitor_timeout ⟨States.MONITOR, false, 6, 1, 1, 1⟩ rfl).1 (by decide),
   (c6_monitor_timeout ⟨States.MONITOR, false, 5, 1, 1, 1⟩ rfl).2 (by decide)⟩

/-! ### Claim C7 -/

/-- Claim C7 (confirmed): a received `'m'` that is not intercepted by
the latch answers with exactly one `'M'` and resets the timer; the
state ends up MONITOR whether it already was MONITOR (refresh, no
transition) or not (transition), and nothing else changes. -/
theorem c7_enter_monitor (s : Config) (hl : s.isPanicBlock = false) :
    processCommunication s (some 'm') =
      ({ currentState := States.MONITOR, isPanicBlock := s.isPanicBlock,
         elapsed := 0, led1 := s.led1, relay := s.relay,
         buzzer := s.buzzer }, ['M']) := by
  obtain ⟨st, pb, e, l, r, bz⟩ := s
  simp only at hl ⊢
  subst hl
  by_cases hst : st = States.MONITOR <;>
    simp [processCommunication, transitionToState, hst]

/-- Witness for C7: from OFF with the latch unset, `'m'` moves to
MONITOR with the timer reset and answers `'M'`; from MONITOR with the
timer at 4, `'m'` keeps MONITOR, resets the timer and answers `'M'`. -/
theorem c7_witness :
    processCommunication ⟨States.OFF, false, 3, 0, 0, 0⟩ (some 'm') =
      (⟨States.MONITOR, false, 0, 0, 0, 0⟩, ['M']) ∧
    processCommunication ⟨States.MONITOR, false, 4, 0, 0, 0⟩ (some 'm') =
      (⟨States.MONITOR, false, 0, 0, 0, 0⟩, ['M']) :=
  ⟨c7_enter_monitor ⟨States.OFF, false, 3, 0, 0, 0⟩ rfl,
   c7_enter_monitor ⟨States.MONITOR, false, 4, 0, 0, 0⟩ rfl⟩

/-! ### Claim C8 -/

/-- Counterexample to C8: a poll step from PANIC to MONITOR is
reachable.  From power-on, `'p'` moves to PANIC without setting the
latch (the command path never sets it), so a following `'m'` passes
the latch guard and transitions PANIC to MONITOR. -/
theorem c8_counterexample :
    (run initConfig [(0, some 'p', false)]).1.currentState = States.PANIC ∧
    (run initConfig [(0, some 'p', false)]).1.isPanicBlock = false ∧
    (run initConfig [(0, some 'p', false), (0, some 'm', false)]).1.currentState
      = States.MONITOR := by
  decide

/-- Claim C8 (corrected): the listed transitions must be extended with
PANIC to MONITOR, reachable by an `'m'` received while the latch is
unset (the warning phase entered by the `'p'` command or the Monitor
timeout leaves the latch unset).  While the latch is set, no poll
step moves the system from PANIC to MONITOR, whatever byte and button
level arrive. -/
theorem c8_panic_transitions (s : Config) (received : Option Char) (b : Bool)
    (hs : s.currentState = States.PANIC) :
    (s.isPanicBlock = true →
      (processStates s received b).1.currentState ≠ States.MONITOR) ∧
    (s.isPanicBlock = false →
      (processStates s (some 'm') false).1.currentState = States.MONITOR) := by
  obtain ⟨st, pb, e, l, r, bz⟩ := s
  simp only at hs
  subst hs
  constructor
  · intro hl
    simp only at hl
    subst hl
    cases received with
    | none =>
      by_cases he : e < ALARM_TIME <;>
        simp [processStates, processCommunication, processButtonPress,
          handlePanicState, he]
    | some ch =>
      by_cases hcho : ch = 'o'
      · subst hcho
        cases b <;>
          simp [processStates, processCommunication, processButtonPress,
            transitionToState, handlePanicState, outputsOffSet, ALARM_TIME]
      · by_cases he : e < ALARM_TIME <;>
          simp [processStates, processCommunication, processButtonPress,
            handlePanicState, he, hcho]
  · intro hl
    simp only at hl
    subst hl
    simp [processStates, processCommunication, processButtonPress,
      transitionToState, handleMonitorState, outputsOffSet, TIME_FOR_OVERTIME]

/-- Witness for C8 (amended): latched in PANIC, an `'m'` with the
button held does not reach MONITOR; unlatched in PANIC, an `'m'`
does. -/
theorem c8_witness :
    (processStates ⟨States.PANIC, true, 21, 1, 1, 0⟩ (some 'm') true).1.currentState
      ≠ States.MONITOR ∧
    (processStates ⟨States.PANIC, false, 3, 0, 0, 0⟩ (some 'm') false).1.currentState
      = States.MONITOR :=
  ⟨(c8_panic_transitions ⟨States.PANIC, true, 21, 1, 1, 0⟩ (some 'm') true rfl).1 rfl,
   (c8_panic_transitions ⟨States.PANIC, false, 3, 0, 0, 0⟩ (some 'm') false rfl).2 rfl⟩

/-! ### Claim C9 -/

theorem poll_p_unlatched (s : Config) (hl : s.isPanicBlock = false) :
    processStates s (some 'p') false =
      ({ currentState := States.PANIC, isPanicBlock := false, elapsed := 0,
         led1 := 0, relay := s.relay, buzzer := 0 }, ['P']) := by
  obtain ⟨st, pb, e, l, r, bz⟩ := s
  simp only at hl
  subst hl
  simp [processStates, processCommunication, processButtonPress,
    transitionToState, handlePanicState, ALARM_TIME]

theorem run_p_flood (ds : List Nat) :
    ∀ s : Config, s.currentState = States.PANIC → s.isPanicBlock = false →
    (run s (ds.map fun d => (d, some 'p', false))).1.currentState = States.PANIC ∧
    (run s (ds.map fun d => (d, some 'p', false))).1.isPanicBlock = false ∧
    (run s (ds.map fun d => (d, some 'p', false))).1.relay = s.relay ∧
    (run s (ds.map fun d => (d, some 'p', false))).2 = List.replicate ds.length 'P' := by
  induction ds with
  | nil => exact fun s hs hl => ⟨hs, hl, rfl, rfl⟩
  | cons d ds ih =>
    intro s hs hl
    have hstep : step s (d, some 'p', false) =
        ({ currentState := States.PANIC, isPanicBlock := false, elapsed := 0,
           led1 := 0, relay := s.relay, buzzer := 0 }, ['P']) := by
      have := poll_p_unlatched { s with elapsed := s.elapsed + d } hl
      simpa [step] using this
    have ih2 := ih ⟨States.PANIC, false, 0, 0, s.relay, 0⟩ rfl rfl
    simp [run, hstep, List.replicate_succ]
    exact ⟨ih2.1, ih2.2.1, ih2.2.2.1, ih2.2.2.2⟩

/-- Claim C9 (confirmed): a poll in PANIC with the latch unset that
receives `'p'` (button released) keeps the state PANIC and the latch
unset, answers with exactly one `'P'`, and resets the timer to zero —
and any number of such polls, with arbitrary delays in between, keep
the system in the warning phase: the latch is never set, the relay is
never newly driven, and each poll answers exactly one `'P'`, so the
escalation phase is postponed indefinitely. -/
theorem c9_p_resets_and_postpones (s : Config) (ds : List Nat)
    (hs : s.currentState = States.PANIC) (hl : s.isPanicBlock = false) :
    processStates s (some 'p') false =
      ({ currentState := States.PANIC, isPanicBlock := false, elapsed := 0,
         led1 := 0, relay := s.relay, buzzer := 0 }, ['P']) ∧
    (run s (ds.map fun d => (d, some 'p', false))).1.currentState = States.PANIC ∧
    (run s (ds.map fun d => (d, some 'p', false))).1.isPanicBlock = false ∧
    (run s (ds.map fun d => (d, some 'p', false))).1.relay = s.relay ∧
    (run s (ds.map fun d => (d, some 'p', false))).2 = List.replicate ds.length 'P' :=
  ⟨poll_p_unlatched s hl, run_p_flood ds s hs hl⟩

/-- Witness for C9: from PANIC, unlatched, timer at 19, two `'p'`
polls 3 and 25 seconds apart leave the system in PANIC, unlatched,
relay low, answering one `'P'` each. -/
theorem c9_witness :
    processStates ⟨States.PANIC, false, 19, 1, 0, 1⟩ (some 'p') false =
      (⟨States.PANIC, false, 0, 0, 0, 0⟩, ['P']) ∧
    (run ⟨States.PANIC, false, 19, 1, 0, 1⟩
      [(3, some 'p', false), (25, some 'p', false)]).1.isPanicBlock = false ∧
    (run ⟨States.PANIC, false, 19, 1, 0, 1⟩
      [(3, some 'p', false), (25, some 'p', false)]).2 = ['P', 'P'] :=
  ⟨(c9_p_resets_and_postpones ⟨States.PANIC, false, 19, 1, 0, 1⟩ [3, 25] rfl rfl).1,
   (c9_p_resets_and_postpones ⟨States.PANIC, false, 19, 1, 0, 1⟩ [3, 25] rfl rfl).2.2.1,
   (c9_p_resets_and_postpones ⟨States.PANIC, false, 19, 1, 0, 1⟩ [3, 25] rfl rfl).2.2.2.2⟩

/-! ### Claim C10 -/

/-- Claim C10 (confirmed): in a poll that consumes `'o'` while the raw
button input reads pressed, the command processing first moves the
system to OFF with the latch cleared and answers `'O'`, and the button
processing of the same cycle then fires again: the cycle ends in PANIC
with the latch set and the timer reset, having emitted `'O'` and then
`'P'` — the Off command cannot hold the system in OFF while the
button stays physically pressed. -/
theorem c10_off_command_button_refires (s : Config) :
    processCommunication s (some 'o') =
      ({ currentState := States.OFF, isPanicBlock := false, elapsed := 0,
         led1 := s.led1, relay := s.relay, buzzer := s.buzzer }, ['O']) ∧
    processStates s (some 'o') true =
      ({ currentState := States.PANIC, isPanicBlock := true, elapsed := 0,
         led1 := 0, relay := s.relay, buzzer := 0 }, ['O', 'P']) := by
  obtain ⟨st, pb, e, l, r, bz⟩ := s
  constructor <;>
    simp [processStates, processCommunication, processButtonPress,
      transitionToState, handlePanicState, ALARM_TIME]
